import Mathlib

/-!
Verification of the button-position derivation core of the Flux-hack
repository (`src/LLM/src/button_position_analyzer.py`).

The pipeline reads, from each room dict, only the fields `name`, `type`
and `area_sqft`; a `Room` here models exactly those.  A `Detection`
models one entry of the external label detector's `buttons` array
(`room_name`, `x`, `y`).  Percent coordinates are modelled as rationals;
Python's `round(v, 2)` (round-half-to-even to two decimals) is modelled
by `round2`.  Canvas dimensions are image sizes in pixels, modelled as
naturals.
-/

structure Room where
  name : String
  type : String
  area_sqft : ℚ
  deriving DecidableEq, Repr

structure Detection where
  room_name : String
  x : ℤ
  y : ℤ
  deriving DecidableEq, Repr

structure Button where
  x_percent : ℚ
  y_percent : ℚ
  room_data : Room
  deriving DecidableEq, Repr

/-- Round-half-to-even to the nearest integer, the tie rule of Python's
`round`. -/
def rhe (q : ℚ) : ℤ :=
  let f := ⌊q⌋
  let r := q - f
  if r < 1/2 then f
  else if 1/2 < r then f + 1
  else if f % 2 = 0 then f else f + 1

/-- Python's `round(q, 2)`: round to two decimal places, ties to even. -/
def round2 (q : ℚ) : ℚ := (rhe (q * 100) : ℚ) / 100

/-- `startsWithL n h` : the char list `n` is a leading run of `h`. -/
def startsWithL : List Char → List Char → Bool
  | [], _ => true
  | _ :: _, [] => false
  | c :: cs, d :: ds => c == d && startsWithL cs ds

/-- `hasSubL n h` : the char list `n` occurs contiguously inside `h`. -/
def hasSubL (needle : List Char) : List Char → Bool
  | [] => needle.isEmpty
  | c :: t => startsWithL needle (c :: t) || hasSubL needle t

/-- Python's `.upper()` on a string seen as its character list. -/
def toUpperL (s : List Char) : List Char := s.map Char.toUpper

/-- Python's `.strip()`: drop whitespace from both ends. -/
def trimL (s : List Char) : List Char :=
  ((s.dropWhile Char.isWhitespace).reverse.dropWhile Char.isWhitespace).reverse

/-- Python's `name.upper().strip()`, the normal form both sides of every
name comparison in `_find_matching_room` are put into. -/
def normName (s : String) : List Char := trimL (toUpperL s.toList)

/-! ## Room Filter (analyze, lines 65–78) -/

def MIN_AREA_SQFT : ℚ := 30

def EXCLUDED_TYPES : List String := ["closet", "storage"]

def IMPORTANT_TYPES : List String :=
  ["bathroom", "kitchen", "bedroom", "living_room", "dining_room"]

/-- The room filter predicate of `analyze` (lines 70–74):
`(r.get('area_sqft', 0) >= MIN_AREA_SQFT or r.get('type','') in
IMPORTANT_TYPES) and r.get('type','') not in EXCLUDED_TYPES`. -/
def eligibleB (r : Room) : Bool :=
  (MIN_AREA_SQFT ≤ r.area_sqft || IMPORTANT_TYPES.contains r.type)
    && !(EXCLUDED_TYPES.contains r.type)

/-- `filtered_rooms` of `analyze`: the list comprehension keeping
eligible rooms in input order. -/
def filterRooms (rooms : List Room) : List Room := rooms.filter eligibleB

/-! ## Label Matcher (`_find_matching_room`, lines 233–269) -/

/-- The `type_keywords` dict, in Python insertion (iteration) order. -/
def type_keywords : List (String × String) :=
  [("LIVING", "living_room"), ("BEDROOM", "bedroom"), ("MASTER", "bedroom"),
   ("KITCHEN", "kitchen"), ("DINING", "dining_room"), ("BATH", "bathroom"),
   ("CLOSET", "closet"), ("OFFICE", "office"), ("GARAGE", "garage"),
   ("HALLWAY", "hallway"), ("ENTRANCE", "entrance")]

/-- The keyword stage of `_find_matching_room`: for each table entry in
order whose keyword occurs in the detection name, return the first room
of the mapped type; fall through to the next keyword otherwise. -/
def keywordMatch (nameU : List Char) : List (String × String) → List Room → Option Room
  | [], _ => none
  | (kw, ty) :: rest, rooms =>
    if hasSubL kw.toList nameU then
      match rooms.find? (fun r => r.type == ty) with
      | some r => some r
      | none => keywordMatch nameU rest rooms
    else keywordMatch nameU rest rooms

/-- `_find_matching_room`: exact match on upper-cased trimmed names,
then substring match in either direction, then the keyword table. -/
def find_matching_room (room_name : String) (rooms : List Room) : Option Room :=
  let nu := normName room_name
  match rooms.find? (fun r => normName r.name == nu) with
  | some r => some r
  | none =>
    match rooms.find? (fun r =>
        let rs := normName r.name
        hasSubL nu rs || hasSubL rs nu) with
    | some r => some r
    | none => keywordMatch nu type_keywords rooms

/-! ## Coordinate Normalizer (`_process_button_data`, lines 216–222) -/

/-- One coordinate of `_process_button_data`:
`round((v / dim) * 100, 2) if dim > 0 else 50`, then
`max(0, min(100, ·))`. -/
def normalize_coord (v : ℤ) (dim : ℕ) : ℚ :=
  let p : ℚ := if 0 < dim then round2 ((v : ℚ) / (dim : ℚ) * 100) else 50
  max 0 (min 100 p)

/-- `_process_button_data`: for each detection in order, find a matching
room; skip the detection when none matches, otherwise emit a button with
normalized, clamped percent coordinates and the full room data. -/
def process_button_data (dets : List Detection) (rooms : List Room)
    (width height : ℕ) : List Button :=
  match dets with
  | [] => []
  | d :: rest =>
    match find_matching_room d.room_name rooms with
    | none => process_button_data rest rooms width height
    | some r =>
      { x_percent := normalize_coord d.x width
        y_percent := normalize_coord d.y height
        room_data := r } :: process_button_data rest rooms width height

/-! ## Gap-Fill Estimator (`_create_fallback_buttons`, lines 332–390) -/

/-- The per-room position if-chain of `_create_fallback_buttons`. -/
def fallback_button_for (r : Room) : Button :=
  if r.type == "bathroom" then ⟨50, 20, r⟩
  else if r.type == "kitchen" then ⟨15, 15, r⟩
  else if r.type == "dining_room" then ⟨40, 15, r⟩
  else if r.type == "bedroom" then
    (if 150 < r.area_sqft then ⟨65, 65, r⟩ else ⟨75, 15, r⟩)
  else if r.type == "living_room" then ⟨30, 50, r⟩
  else ⟨50, 50, r⟩

/-- `_create_fallback_buttons`: one synthesized button per given room,
in order.  The `width`/`height` parameters are accepted (to mirror the
Python signature) but never read by the body. -/
def create_fallback_buttons (rooms : List Room) (_width _height : ℕ) : List Button :=
  rooms.map fallback_button_for

/-! ## Full-fallback grid (`_fallback_positions`, lines 392–419) -/

/-- The loop of `_fallback_positions`, carrying the running index `i`:
`x = 20 + (i % 3) * 30`, `y = 20 + (i // 3) * 25`. -/
def fallbackGo (i : ℕ) : List Room → List Button
  | [] => []
  | r :: rest =>
    { x_percent := 20 + ((i % 3 : ℕ) : ℚ) * 30
      y_percent := 20 + ((i / 3 : ℕ) : ℚ) * 25
      room_data := r } :: fallbackGo (i + 1) rest

/-- `_fallback_positions`: a simple 3-column grid layout over the rooms
it is given (in `analyze` it is invoked with the full, unfiltered room
list).  `width`/`height` mirror the Python signature and are unused. -/
def fallback_positions (rooms : List Room) (_width _height : ℕ) : List Button :=
  fallbackGo 0 rooms

/-! ## Overlap Resolver (`_fix_overlapping_buttons`, lines 271–330) -/

def BUTTON_WIDTH : ℚ := 15
def BUTTON_HEIGHT : ℚ := 8
def MIN_SPACING : ℚ := 2

/-- Python's `abs` on a rational. -/
def pyAbs (q : ℚ) : ℚ := if q < 0 then -q else q

/-- The overlap test of the resolver:
`dx < BUTTON_WIDTH + MIN_SPACING and dy < BUTTON_HEIGHT + MIN_SPACING`
where `dx = abs(x - px)` and `dy = abs(y - py)`. -/
def overlapsWith (x y px py : ℚ) : Bool :=
  decide (pyAbs (x - px) < BUTTON_WIDTH + MIN_SPACING)
    && decide (pyAbs (y - py) < BUTTON_HEIGHT + MIN_SPACING)

/-- The first already-placed button overlapping position `(x, y)`. -/
def findConflict (placed : List Button) (x y : ℚ) : Option Button :=
  placed.find? (fun p => overlapsWith x y p.x_percent p.y_percent)

/-- One adjustment of the resolver: move 10 points away from the
conflicting position along the axis with the smaller absolute gap,
clamped into `[5, 95]`. -/
def adjustStep (x y px py : ℚ) : ℚ × ℚ :=
  if pyAbs (x - px) < pyAbs (y - py) then
    (if x < px then max 5 (x - 10) else min 95 (x + 10), y)
  else
    (x, if y < py then max 5 (y - 10) else min 95 (y + 10))

/-- The inner `while overlaps and attempts < max_attempts` loop: at most
`fuel` adjustments, stopping early when no placed button conflicts. -/
def adjustLoop : ℕ → List Button → ℚ → ℚ → ℚ × ℚ
  | 0, _, x, y => (x, y)
  | fuel + 1, placed, x, y =>
    match findConflict placed x y with
    | none => (x, y)
    | some p =>
      let s := adjustStep x y p.x_percent p.y_percent
      adjustLoop fuel placed s.1 s.2

/-- Processing of one button: run the adjustment loop (20 attempts)
against the placed list, then write back the rounded coordinates. -/
def fixOne (placed : List Button) (b : Button) : Button :=
  let s := adjustLoop 20 placed b.x_percent b.y_percent
  { b with x_percent := round2 s.1, y_percent := round2 s.2 }

/-- The outer loop of `_fix_overlapping_buttons`, accumulating the
`fixed_buttons` list. -/
def fixGo (placed : List Button) : List Button → List Button
  | [] => []
  | b :: rest =>
    let b' := fixOne placed b
    b' :: fixGo (placed ++ [b']) rest

/-- `_fix_overlapping_buttons`: every button is appended (in input
order) after at most 20 adjustment attempts, residual overlap accepted. -/
def fix_overlapping_buttons (buttons : List Button) : List Button :=
  fixGo [] buttons

/-! ## The pipeline (`analyze`, lines 140–190, success path)

`analyze` is the orchestration: filter rooms, convert the detector's
output to buttons, gap-fill rooms not covered by a detection, resolve
overlaps.  The external LLM call is abstracted into the detection-list
input (spec §6 names this operation `derive_buttons`).  The no-client
and exception paths of `analyze` call `fallback_positions` on the
unfiltered room list and are modelled by that function directly. -/

/-- The duplicate-avoidance test of `analyze` (lines 158–172): a
filtered room is skipped when its upper-cased name equals, contains or
is contained in some already-detected button's room name. -/
def coveredBy (detected : List (List Char)) (r : Room) : Bool :=
  let rn := toUpperL r.name.toList
  detected.contains rn
    || detected.any (fun d => hasSubL rn d || hasSubL d rn)

/-- The pure core of `analyze` (spec §6: `derive_buttons`): Room Filter,
Label Matcher + Coordinate Normalizer over the detections, Gap-Fill for
uncovered rooms, Overlap Resolver. -/
def derive_buttons (rooms : List Room) (dets : List Detection)
    (width height : ℕ) : List Button :=
  let filtered := filterRooms rooms
  if filtered.isEmpty then []
  else
    let buttons := process_button_data dets filtered width height
    let detected := buttons.map (fun b => toUpperL b.room_data.name.toList)
    let missing := filtered.filter (fun r => !(coveredBy detected r))
    fix_overlapping_buttons (buttons ++ create_fallback_buttons missing width height)

/-! ## Spec-side definitions

These are written from the words of `spec.md` (not from the code) and
are compared with the code-side definitions above in the refinement
theorems. -/

/-- Modelled from the spec (§4.1): a room is eligible iff
(`area_sqft ≥ min_area_sqft` OR `type ∈ always_include_types`) AND
`type ∉ excluded_types`, with the default parameter values. -/
def eligible_spec (r : Room) : Prop :=
  (30 ≤ r.area_sqft
      ∨ r.type ∈ ["bathroom", "kitchen", "bedroom", "living_room", "dining_room"])
    ∧ r.type ∉ (["closet", "storage"] : List String)

instance (r : Room) : Decidable (eligible_spec r) := by
  unfold eligible_spec; infer_instance

/-- Spec §4.2 rule 1: the detection name (case-insensitive, trimmed)
equals a room's name; first such room. -/
def exactMatch_spec (name : String) (rooms : List Room) : Option Room :=
  rooms.find? (fun r => normName r.name == normName name)

/-- Spec §4.2 rule 2: the detection name is a substring of a room's name
or vice versa (case-insensitive); first such room. -/
def substringMatch_spec (name : String) (rooms : List Room) : Option Room :=
  rooms.find? (fun r =>
    hasSubL (normName name) (normName r.name)
      || hasSubL (normName r.name) (normName name))

/-- Spec §4.2 rule 3: among table entries (in table order) whose keyword
occurs in the detection name and whose type is carried by some room,
take the first room of the first such entry's type. -/
def keywordMatch_spec (name : String) (rooms : List Room) : Option Room :=
  (type_keywords.filterMap (fun e =>
    if hasSubL e.1.toList (normName name) then rooms.find? (fun r => r.type == e.2)
    else none)).head?

/-- Spec §4.2: the first rule that succeeds, in order. -/
def matcher_spec (name : String) (rooms : List Room) : Option Room :=
  ((exactMatch_spec name rooms).orElse fun _ =>
    (substringMatch_spec name rooms).orElse fun _ =>
      keywordMatch_spec name rooms)

/-- Modelled from the spec (§4.3):
`x_percent = clamp(round(x / width * 100, 2), 0, 100)`; if the
dimension is 0, defaults to 50 (centered). -/
def normalize_spec (v : ℤ) (dim : ℕ) : ℚ :=
  if dim = 0 then 50
  else max 0 (min 100 (round2 ((v : ℚ) / (dim : ℚ) * 100)))

/-- Modelled from the spec (§4.4): the fixed gap-fill lookup keyed on
room type (bedroom split on `area_sqft > 150`). -/
def gapfill_spec (r : Room) : ℚ × ℚ :=
  if r.type = "bathroom" then (50, 20)
  else if r.type = "kitchen" then (15, 15)
  else if r.type = "dining_room" then (40, 15)
  else if r.type = "bedroom" then
    (if 150 < r.area_sqft then (65, 65) else (75, 15))
  else if r.type = "living_room" then (30, 50)
  else (50, 50)

/-- A button is inside the canvas: both percent coordinates in `[0, 100]`. -/
def inBounds (b : Button) : Prop :=
  0 ≤ b.x_percent ∧ b.x_percent ≤ 100 ∧ 0 ≤ b.y_percent ∧ b.y_percent ≤ 100

/-- A rational is expressible with two decimal places. -/
def twoDecimals (q : ℚ) : Prop := (q * 100).den = 1

/-! ## Concrete fixtures used in examples, witnesses and counterexamples -/

def kitchenR : Room := ⟨"Kitchen", "kitchen", 100⟩
def bathR : Room := ⟨"Bathroom", "bathroom", 40⟩
def closet40 : Room := ⟨"Closet", "closet", 40⟩
def bath10 : Room := ⟨"Bathroom", "bathroom", 10⟩
def bedroomR : Room := ⟨"Bedroom", "bedroom", 120⟩

/-! ## Helper lemmas -/

theorem eligibleB_iff (r : Room) : eligibleB r = true ↔ eligible_spec r := by
  simp [eligibleB, eligible_spec, MIN_AREA_SQFT, IMPORTANT_TYPES, EXCLUDED_TYPES]

theorem fallback_button_for_eq (r : Room) :
    fallback_button_for r = ⟨(gapfill_spec r).1, (gapfill_spec r).2, r⟩ := by
  simp only [fallback_button_for, gapfill_spec, beq_iff_eq]
  split_ifs <;> rfl

theorem fallback_button_for_room (r : Room) : (fallback_button_for r).room_data = r := by
  unfold fallback_button_for
  split_ifs <;> rfl

theorem process_eq_filterMap (dets : List Detection) (rooms : List Room) (w h : ℕ) :
    process_button_data dets rooms w h = dets.filterMap (fun d =>
      (find_matching_room d.room_name rooms).map (fun r =>
        ⟨normalize_coord d.x w, normalize_coord d.y h, r⟩)) := by
  induction dets with
  | nil => rfl
  | cons d rest ih =>
    simp only [process_button_data, List.filterMap_cons]
    cases hf : find_matching_room d.room_name rooms <;> simp [hf, ih]

theorem normalize_coord_eq_spec (v : ℤ) (dim : ℕ) :
    normalize_coord v dim = normalize_spec v dim := by
  cases dim with
  | zero => norm_num [normalize_coord, normalize_spec]
  | succ n => simp [normalize_coord, normalize_spec]

theorem fallbackGo_length (k : ℕ) (rooms : List Room) :
    (fallbackGo k rooms).length = rooms.length := by
  induction rooms generalizing k with
  | nil => rfl
  | cons r rest ih => simp [fallbackGo, ih]

theorem fallbackGo_getElem (k i : ℕ) (rooms : List Room) :
    (fallbackGo k rooms)[i]? = rooms[i]?.map (fun r =>
      ⟨20 + (((k + i) % 3 : ℕ) : ℚ) * 30, 20 + (((k + i) / 3 : ℕ) : ℚ) * 25, r⟩) := by
  induction rooms generalizing k i with
  | nil => simp [fallbackGo]
  | cons r rest ih =>
    cases i with
    | zero => simp [fallbackGo]
    | succ n =>
      have hk : k + (n + 1) = (k + 1) + n := by omega
      simp [fallbackGo, ih (k + 1) n, hk]

/-! ## Claim theorems -/

/-- C6: the Room Filter keeps a room iff (`area_sqft ≥ 30` or its type
is one of bathroom, kitchen, bedroom, living_room, dining_room) and its
type is not closet or storage; it returns an ordered subsequence of the
input; a 40 sqft closet is excluded and a 10 sqft bathroom included. -/
theorem C6_room_filter :
    (∀ rooms : List Room, filterRooms rooms
      = rooms.filter (fun r => decide (eligible_spec r)))
    ∧ (∀ rooms : List Room, (filterRooms rooms).Sublist rooms)
    ∧ filterRooms [closet40, bath10] = [bath10] := by
  refine ⟨fun rooms => ?_, fun rooms => List.filter_sublist _, by decide⟩
  refine List.filter_congr fun r _ => ?_
  calc eligibleB r = decide (eligibleB r = true) := (Bool.decide_coe _).symm
    _ = decide (eligible_spec r) := decide_eq_decide.mpr (eligibleB_iff r)

/-- C9: the Gap-Fill Estimator assigns every room it is given the fixed
type-keyed position of the spec's lookup table (bedroom split on
`area_sqft > 150`), and is deterministic: it is a pure function of the
room list alone (in particular independent of the canvas size). -/
theorem C9_gapfill : ∀ (rooms : List Room) (w h w2 h2 : ℕ),
    create_fallback_buttons rooms w h
      = rooms.map (fun r => ⟨(gapfill_spec r).1, (gapfill_spec r).2, r⟩)
    ∧ create_fallback_buttons rooms w h = create_fallback_buttons rooms w2 h2 := by
  intro rooms w h w2 h2
  refine ⟨?_, rfl⟩
  unfold create_fallback_buttons
  exact List.map_congr_left fun r _ => fallback_button_for_eq r

/-- C8: the Coordinate Normalizer is total and agrees with the spec's
`clamp(round(v / dim * 100, 2), 0, 100)` formula, yielding 50 when the
dimension is 0; `_process_button_data` applies it to both coordinates of
every matched detection. -/
theorem C8_normalizer : ∀ (v : ℤ) (dim : ℕ) (dets : List Detection)
    (rooms : List Room) (w h : ℕ),
    normalize_coord v dim = normalize_spec v dim
    ∧ (dim = 0 → normalize_coord v dim = 50)
    ∧ process_button_data dets rooms w h = dets.filterMap (fun d =>
        (find_matching_room d.room_name rooms).map (fun r =>
          ⟨normalize_spec d.x w, normalize_spec d.y h, r⟩)) := by
  intro v dim dets rooms w h
  refine ⟨normalize_coord_eq_spec v dim, fun h0 => ?_, ?_⟩
  · subst h0; norm_num [normalize_coord]
  · rw [process_eq_filterMap]
    refine List.filterMap_congr fun d _ => ?_
    simp [normalize_coord_eq_spec]

/-- C8 witness: at dimension 0 the normalizer returns the centered 50. -/
theorem C8_normalizer_witness : normalize_coord 7 0 = 50 :=
  (C8_normalizer 7 0 [] [] 0 0).2.1 rfl

/-- C4 (amended): in total fallback mode the grid generator positions
every room of the list it receives (in `analyze` this is the full,
unfiltered room list, in input order): index `i` gets
`x = 20 + 30·(i mod 3)`, `y = 20 + 25·(i div 3)`; for 4 rooms the
positions are (20,20), (50,20), (80,20), (20,45). -/
theorem C4_grid_amended : ∀ (rooms : List Room) (w h i : ℕ),
    (fallback_positions rooms w h).length = rooms.length
    ∧ (fallback_positions rooms w h)[i]?
        = rooms[i]?.map (fun r =>
            ⟨20 + 30 * ((i % 3 : ℕ) : ℚ), 20 + 25 * ((i / 3 : ℕ) : ℚ), r⟩)
    ∧ (∀ r1 r2 r3 r4 : Room, fallback_positions [r1, r2, r3, r4] w h
        = [⟨20, 20, r1⟩, ⟨50, 20, r2⟩, ⟨80, 20, r3⟩, ⟨20, 45, r4⟩]) := by
  intro rooms w h i
  refine ⟨fallbackGo_length 0 rooms, ?_, fun r1 r2 r3 r4 => ?_⟩
  · rw [fallback_positions, fallbackGo_getElem]
    simp [mul_comm]
  · norm_num [fallback_positions, fallbackGo]

/-- C4 counterexample: the no-detector grid path positions the full
input list, not the filtered one: an ineligible 40 sqft closet receives
a button, and the eligible kitchen gets the index-1 slot (50,20) rather
than its filtered-order slot (20,20). -/
theorem C4_grid_cex :
    fallback_positions [closet40, kitchenR] 100 100
      = [⟨20, 20, closet40⟩, ⟨50, 20, kitchenR⟩]
    ∧ filterRooms [closet40, kitchenR] = [kitchenR] := by
  constructor
  · norm_num [fallback_positions, fallbackGo]
  · decide

theorem fixOne_room (placed : List Button) (b : Button) :
    (fixOne placed b).room_data = b.room_data := rfl

theorem fixOne_x (placed : List Button) (b : Button) :
    (fixOne placed b).x_percent
      = round2 (adjustLoop 20 placed b.x_percent b.y_percent).1 := rfl

theorem fixOne_y (placed : List Button) (b : Button) :
    (fixOne placed b).y_percent
      = round2 (adjustLoop 20 placed b.x_percent b.y_percent).2 := rfl

theorem fixGo_length (placed bs : List Button) :
    (fixGo placed bs).length = bs.length := by
  induction bs generalizing placed with
  | nil => rfl
  | cons b rest ih => simp [fixGo, ih]

theorem fix_length (bs : List Button) :
    (fix_overlapping_buttons bs).length = bs.length := fixGo_length [] bs

theorem fixGo_room_data (placed bs : List Button) :
    (fixGo placed bs).map Button.room_data = bs.map Button.room_data := by
  induction bs generalizing placed with
  | nil => rfl
  | cons b rest ih => simp [fixGo, ih, fixOne_room]

theorem round2_twoDecimals (q : ℚ) : twoDecimals (round2 q) := by
  unfold twoDecimals round2
  rw [div_mul_cancel₀]
  · exact Rat.den_intCast _
  · norm_num

theorem fixGo_twoDecimals (placed bs : List Button) : ∀ b ∈ fixGo placed bs,
    twoDecimals b.x_percent ∧ twoDecimals b.y_percent := by
  induction bs generalizing placed with
  | nil => intro b hb; simp [fixGo] at hb
  | cons c rest ih =>
    intro b hb
    simp only [fixGo, List.mem_cons] at hb
    rcases hb with rfl | hb
    · exact ⟨by rw [fixOne_x]; exact round2_twoDecimals _,
        by rw [fixOne_y]; exact round2_twoDecimals _⟩
    · exact ih _ b hb

theorem adjustLoop_nil (n : ℕ) (x y : ℚ) : adjustLoop n [] x y = (x, y) := by
  cases n <;> simp [adjustLoop, findConflict]

theorem adjustLoop_stop (n : ℕ) (placed : List Button) (x y : ℚ)
    (h : findConflict placed x y = none) : adjustLoop n placed x y = (x, y) := by
  cases n <;> simp [adjustLoop, h]

/-- C10: the Overlap Resolver is a frame transformation: it keeps the
list length and order, keeps every button's `room_data` unchanged, and
only rewrites the two percent coordinates, which it rounds to two
decimal places. -/
theorem C10_resolver_frame : ∀ bs : List Button,
    (fix_overlapping_buttons bs).length = bs.length
    ∧ (fix_overlapping_buttons bs).map Button.room_data = bs.map Button.room_data
    ∧ ∀ b ∈ fix_overlapping_buttons bs,
        twoDecimals b.x_percent ∧ twoDecimals b.y_percent :=
  fun bs => ⟨fixGo_length [] bs, fixGo_room_data [] bs, fixGo_twoDecimals [] bs⟩

/-- C10 witness: the resolver output for a single button at (50,50) has
a two-decimal x coordinate. -/
theorem C10_resolver_frame_witness :
    twoDecimals ((⟨50, 50, kitchenR⟩ : Button).x_percent) := by
  have hround : round2 (50 : ℚ) = 50 := by norm_num [round2, rhe]
  have hfix : fix_overlapping_buttons [⟨50, 50, kitchenR⟩] = [⟨50, 50, kitchenR⟩] := by
    simp [fix_overlapping_buttons, fixGo, fixOne, adjustLoop_nil, hround]
  exact ((C10_resolver_frame [⟨50, 50, kitchenR⟩]).2.2 _
    (by rw [hfix]; exact List.mem_singleton_self _)).1

/-- C2 (code-bug evidence): the class documents both percent coordinates
as 0–100, but on a 13-room list the no-detector grid path emits a 13th
button at `y_percent = 120`. -/
theorem C2_bounds_violation :
    ∃ b ∈ fallback_positions (List.replicate 13 kitchenR) 100 100,
      ¬ (b.y_percent ≤ 100) := by
  refine ⟨⟨20, 120, kitchenR⟩, ?_, by norm_num⟩
  have h12 : (fallback_positions (List.replicate 13 kitchenR) 100 100)[12]?
      = some ⟨20, 120, kitchenR⟩ := by
    rw [fallback_positions, fallbackGo_getElem]
    norm_num [List.getElem?_replicate]
  exact List.getElem?_mem h12

/-- C5: the Overlap Resolver appends every button after at most 20
adjustment passes (output length equals input length regardless of
residual overlap), and two buttons both at (50.0, 50.0) resolve to
(50,50) and (50,60): the second moved 10 points along the y axis, the
axis with the smaller absolute gap, so |Δx| ≥ 17 ∨ |Δy| ≥ 10 holds. -/
theorem C5_overlap_resolution : ∀ (bs : List Button) (r1 r2 : Room),
    (fix_overlapping_buttons bs).length = bs.length
    ∧ fix_overlapping_buttons [⟨50, 50, r1⟩, ⟨50, 50, r2⟩]
        = [⟨50, 50, r1⟩, ⟨50, 60, r2⟩]
    ∧ (17 ≤ |(50 : ℚ) - 50| ∨ 10 ≤ |(60 : ℚ) - 50|) := by
  intro bs r1 r2
  have habs : (10 : ℚ) ≤ |(60 : ℚ) - 50| := by
    rw [show (60 : ℚ) - 50 = 10 by norm_num, abs_of_nonneg (by norm_num : (0:ℚ) ≤ 10)]
  refine ⟨fixGo_length [] bs, ?_, Or.inr habs⟩
  have hround50 : round2 (50 : ℚ) = 50 := by norm_num [round2, rhe]
  have hround60 : round2 (60 : ℚ) = 60 := by norm_num [round2, rhe]
  have hb1 : fixOne [] (⟨50, 50, r1⟩ : Button) = ⟨50, 50, r1⟩ := by
    simp [fixOne, adjustLoop_nil, hround50]
  have hc1 : findConflict [⟨50, 50, r1⟩] 50 50 = some ⟨50, 50, r1⟩ := by
    norm_num [findConflict, List.find?, overlapsWith, pyAbs,
      BUTTON_WIDTH, BUTTON_HEIGHT, MIN_SPACING]
  have hstep : adjustStep 50 50 50 50 = (50, 60) := by
    norm_num [adjustStep, pyAbs, min_def]
  have hc2 : findConflict [⟨50, 50, r1⟩] 50 60 = none := by
    norm_num [findConflict, List.find?, overlapsWith, pyAbs,
      BUTTON_WIDTH, BUTTON_HEIGHT, MIN_SPACING]
  have hloop : adjustLoop 20 [⟨50, 50, r1⟩] 50 50 = (50, 60) := by
    have h1 : adjustLoop 20 [⟨50, 50, r1⟩] 50 50
        = adjustLoop 19 [⟨50, 50, r1⟩] 50 60 := by
      rw [show (20 : ℕ) = 19 + 1 from rfl]
      simp only [adjustLoop, hc1, hstep]
    rw [h1, adjustLoop_stop 19 _ 50 60 hc2]
  have hb2 : fixOne [⟨50, 50, r1⟩] (⟨50, 50, r2⟩ : Button) = ⟨50, 60, r2⟩ := by
    simp [fixOne, hloop, hround50, hround60]
  show fixGo [] [⟨50, 50, r1⟩, ⟨50, 50, r2⟩] = _
  rw [fixGo, hb1]
  simp only [List.nil_append]
  rw [fixGo, hb2, fixGo]

theorem coveredBy_nil (r : Room) : coveredBy [] r = false := rfl

theorem derive_buttons_nil_dets (rooms : List Room) (w h : ℕ) :
    derive_buttons rooms [] w h
      = fix_overlapping_buttons (create_fallback_buttons (filterRooms rooms) w h) := by
  cases hE : (filterRooms rooms).isEmpty with
  | true =>
    have h0 : filterRooms rooms = [] := List.isEmpty_iff.mp hE
    simp [derive_buttons, hE, h0, create_fallback_buttons,
      fix_overlapping_buttons, fixGo]
  | false =>
    have hmiss : (filterRooms rooms).filter
        (fun r => !(coveredBy ([] : List (List Char)) r)) = filterRooms rooms :=
      List.filter_eq_self.mpr fun r _ => by simp [coveredBy_nil]
    simp only [derive_buttons, hE, Bool.false_eq_true, if_false]
    rw [show process_button_data [] (filterRooms rooms) w h = [] from rfl]
    simp only [List.map_nil, List.nil_append]
    rw [hmiss]

theorem derive_buttons_eq (rooms : List Room) (dets : List Detection) (w h : ℕ)
    (hne : (filterRooms rooms).isEmpty = false) :
    derive_buttons rooms dets w h
      = fix_overlapping_buttons
          (process_button_data dets (filterRooms rooms) w h
            ++ create_fallback_buttons
                ((filterRooms rooms).filter (fun r =>
                  !(coveredBy ((process_button_data dets (filterRooms rooms) w h).map
                      (fun b => toUpperL b.room_data.name.toList)) r))) w h) := by
  simp only [derive_buttons, hne, Bool.false_eq_true, if_false]

theorem create_fallback_room_data (rooms : List Room) (w h : ℕ) :
    (create_fallback_buttons rooms w h).map Button.room_data = rooms := by
  unfold create_fallback_buttons
  rw [List.map_map]
  have h : ∀ r ∈ rooms, (Button.room_data ∘ fallback_button_for) r = id r :=
    fun r _ => fallback_button_for_room r
  rw [List.map_congr_left h, List.map_id]

/-- C1 (amended): with an empty detection list the 1:1 invariant holds:
the pipeline emits exactly one button per filtered room, carrying the
filtered rooms in filtered order. -/
theorem C1_one_to_one_amended : ∀ (rooms : List Room) (w h : ℕ),
    (derive_buttons rooms [] w h).map Button.room_data = filterRooms rooms
    ∧ (derive_buttons rooms [] w h).length = (filterRooms rooms).length := by
  intro rooms w h
  have key : (derive_buttons rooms [] w h).map Button.room_data = filterRooms rooms := by
    rw [derive_buttons_nil_dets,
      show fix_overlapping_buttons (create_fallback_buttons (filterRooms rooms) w h)
        = fixGo [] (create_fallback_buttons (filterRooms rooms) w h) from rfl,
      fixGo_room_data, create_fallback_room_data]
  refine ⟨key, ?_⟩
  have hlen := congrArg List.length key
  simpa using hlen

/-- C1 counterexample: two detections matching the same filtered room
produce two buttons for one room, so the output is not in 1:1
correspondence with the filtered rooms (2 buttons, 1 eligible room). -/
theorem C1_one_to_one_cex :
    (derive_buttons [kitchenR]
        [⟨"KITCHEN", 10, 10⟩, ⟨"KITCHEN", 20, 20⟩] 100 100).length = 2
    ∧ (filterRooms [kitchenR]).length = 1 := by
  have hm : find_matching_room "KITCHEN" [kitchenR] = some kitchenR := by decide
  have hf : filterRooms [kitchenR] = [kitchenR] := by decide
  have hn10 : normalize_coord 10 100 = 10 := by
    norm_num [normalize_coord, round2, rhe, min_def, max_def]
  have hn20 : normalize_coord 20 100 = 20 := by
    norm_num [normalize_coord, round2, rhe, min_def, max_def]
  have hp : process_button_data [⟨"KITCHEN", 10, 10⟩, ⟨"KITCHEN", 20, 20⟩]
      [kitchenR] 100 100 = [⟨10, 10, kitchenR⟩, ⟨20, 20, kitchenR⟩] := by
    rw [process_eq_filterMap]
    simp [hm, hn10, hn20]
  refine ⟨?_, by simp [hf]⟩
  rw [derive_buttons_eq _ _ _ _ (by decide), hf, hp]
  rw [show ([kitchenR].filter (fun r =>
      !(coveredBy (([⟨10, 10, kitchenR⟩, ⟨20, 20, kitchenR⟩] : List Button).map
          (fun b => toUpperL b.room_data.name.toList)) r))) = [] from by decide]
  rw [fix_length]
  rfl

/-- C3 (amended): with an empty detection list the pipeline produces the
overlap-resolved per-type gap-fill of the filtered rooms; the canvas
dimensions are never consulted on this path (so width or height 0 cannot
raise and does not change the result). -/
theorem C3_empty_detections_amended : ∀ (rooms : List Room) (w h w2 h2 : ℕ),
    derive_buttons rooms [] w h
      = fix_overlapping_buttons (create_fallback_buttons (filterRooms rooms) w2 h2) := by
  intro rooms w h w2 h2
  rw [derive_buttons_nil_dets]
  rfl

/-- C3 counterexample: with no detections the pipeline gap-fills by room
type (a bathroom goes to (50,20)); the grid generator puts the same room
at (20,20), so the two disagree even at nonzero canvas size. -/
theorem C3_empty_detections_cex :
    derive_buttons [bathR] [] 100 100 = [⟨50, 20, bathR⟩]
    ∧ fallback_positions [bathR] 100 100 = [⟨20, 20, bathR⟩]
    ∧ derive_buttons [bathR] [] 100 100 ≠ fallback_positions [bathR] 100 100 := by
  have hround50 : round2 (50 : ℚ) = 50 := by norm_num [round2, rhe]
  have hround20 : round2 (20 : ℚ) = 20 := by norm_num [round2, rhe]
  have h1 : derive_buttons [bathR] [] 100 100 = [⟨50, 20, bathR⟩] := by
    rw [derive_buttons_nil_dets]
    rw [show filterRooms [bathR] = [bathR] from by decide]
    rw [show create_fallback_buttons [bathR] 100 100 = [⟨50, 20, bathR⟩] from by decide]
    simp [fix_overlapping_buttons, fixGo, fixOne, adjustLoop_nil, hround50, hround20]
  have h2 : fallback_positions [bathR] 100 100 = [⟨20, 20, bathR⟩] := by
    norm_num [fallback_positions, fallbackGo]
  refine ⟨h1, h2, ?_⟩
  rw [h1, h2]
  intro hcontra
  norm_num at hcontra

theorem keywordMatch_eq_findSome (nameU : List Char) (tbl : List (String × String))
    (rooms : List Room) :
    keywordMatch nameU tbl rooms
      = tbl.findSome? (fun e =>
          if hasSubL e.1.toList nameU then rooms.find? (fun r => r.type == e.2)
          else none) := by
  induction tbl with
  | nil => rfl
  | cons e rest ih =>
    obtain ⟨kw, ty⟩ := e
    cases hk : hasSubL kw.toList nameU with
    | false =>
      simp only [keywordMatch, List.findSome?_cons, hk, Bool.false_eq_true, if_false]
      exact ih
    | true =>
      simp only [keywordMatch, List.findSome?_cons, hk, if_true]
      cases hf : rooms.find? (fun r => r.type == ty) <;> simp [hf, ih]

theorem keywordMatch_eq_head (name : String) (rooms : List Room) :
    keywordMatch (normName name) type_keywords rooms = keywordMatch_spec name rooms := by
  rw [keywordMatch_eq_findSome]
  unfold keywordMatch_spec
  rw [List.filterMap_head?]

theorem find_matching_room_eq_spec (name : String) (rooms : List Room) :
    find_matching_room name rooms = matcher_spec name rooms := by
  unfold find_matching_room matcher_spec exactMatch_spec substringMatch_spec keywordMatch_spec
  cases h1 : rooms.find? (fun r => normName r.name == normName name) with
  | some r => simp [h1, Option.orElse]
  | none =>
    cases h2 : rooms.find? (fun r =>
        hasSubL (normName name) (normName r.name)
          || hasSubL (normName r.name) (normName name)) with
    | some r => simp [h1, h2, Option.orElse]
    | none =>
      simp [h1, h2, Option.orElse]
      rw [keywordMatch_eq_findSome]
      rfl

/-- C7: the Label Matcher is the spec's three-rule cascade (exact, then
substring either way, then keyword table), resolving each detection to
at most one room; every emitted button comes from a detection the
matcher resolved (unresolved detections are discarded); and the
detection "MASTER BEDROOM" matches room "Bedroom" by the substring rule
(the exact rule fails on it). -/
theorem C7_label_matcher : ∀ (name : String) (rooms : List Room)
    (dets : List Detection) (w h : ℕ),
    find_matching_room name rooms = matcher_spec name rooms
    ∧ (∀ b ∈ process_button_data dets rooms w h,
        ∃ d ∈ dets, find_matching_room d.room_name rooms = some b.room_data)
    ∧ exactMatch_spec "MASTER BEDROOM" [bedroomR] = none
    ∧ substringMatch_spec "MASTER BEDROOM" [bedroomR] = some bedroomR
    ∧ find_matching_room "MASTER BEDROOM" [bedroomR] = some bedroomR := by
  intro name rooms dets w h
  refine ⟨find_matching_room_eq_spec name rooms, ?_, by decide, by decide, by decide⟩
  intro b hb
  induction dets with
  | nil => simp [process_button_data] at hb
  | cons d rest ih =>
    simp only [process_button_data] at hb
    cases hf : find_matching_room d.room_name rooms with
    | none =>
      rw [hf] at hb
      obtain ⟨d2, hd2, h2⟩ := ih hb
      exact ⟨d2, List.mem_cons_of_mem _ hd2, h2⟩
    | some r =>
      rw [hf] at hb
      rcases List.mem_cons.mp hb with rfl | hb2
      · exact ⟨d, List.mem_cons_self _ _, by simpa using hf⟩
      · obtain ⟨d2, hd2, h2⟩ := ih hb2
        exact ⟨d2, List.mem_cons_of_mem _ hd2, h2⟩

/-- C7 witness: the button emitted for the detection "KITCHEN" indeed
comes from a successfully resolved detection. -/
theorem C7_label_matcher_witness :
    ∃ d ∈ ([⟨"KITCHEN", 1, 1⟩] : List Detection),
      find_matching_room d.room_name [kitchenR]
        = some ((⟨50, 50, kitchenR⟩ : Button)).room_data := by
  have hm : find_matching_room "KITCHEN" [kitchenR] = some kitchenR := by decide
  have hn : normalize_coord 1 0 = 50 := by
    norm_num [normalize_coord, min_def, max_def]
  have hp : process_button_data [⟨"KITCHEN", 1, 1⟩] [kitchenR] 0 0
      = [⟨50, 50, kitchenR⟩] := by
    rw [process_eq_filterMap]
    simp [hm, hn]
  exact (C7_label_matcher "KITCHEN" [kitchenR] [⟨"KITCHEN", 1, 1⟩] 0 0).2.1
    ⟨50, 50, kitchenR⟩ (by rw [hp]; exact List.mem_singleton_self _)
